import Mathlib

set_option linter.unusedVariables false

/-!
Shallow embedding of `src/main.py` (an NFC-tag-driven MP3 jukebox).

The program is a single `MP3Player` object driven by a polling loop.  Its
mutable attributes (`playlist`, `current_track`, `current_subdir`,
`process`, `playing`, `paused`, `current_position`) together with the GPIO
LED output are modelled as one record `PlayerState`; each Python method
becomes a Lean function on that record.  The filesystem under `./music`
is abstracted as `FS` (which subdirectory names exist, and which `*.mp3`
paths `glob` returns inside each).  A live `subprocess.Popen` handle is
modelled by the command line it was spawned with; whether `poll()` reports
an exit is an input to `check_if_track_ended`.  Console printing and
terminal-mode switching are pure I/O with no effect on the modelled state
and are dropped.  Methods that can raise an uncaught Python exception
(`next_track` / `previous_track` before a playlist is loaded) return
`Except String`.
-/

/-- A spawned decoder process, identified by the command line `subprocess.Popen`
was given (`['mpg123', current_file]` in the source). -/
structure Proc where
  cmd : List String
deriving Repr, DecidableEq

/-- Filesystem abstraction for the `./music` root: `isDir d` models
`os.path.isdir(os.path.join(base_dir, d))`, and `mp3Files d` models the unsorted
result of `glob.glob(os.path.join(base_dir, d, "*.mp3"))`. -/
structure FS where
  isDir : String → Bool
  mp3Files : String → List String

/-- The mutable state of the `MP3Player` object plus the GPIO LED line.
`playlist = none` / `current_subdir = none` model the attribute never having
been assigned (Python `__init__` does not set them).  `current_track` is a
Python `int`; it is only meaningful once `playlist` is `some`. -/
structure PlayerState where
  playlist : Option (List String)
  current_track : Int
  current_subdir : Option String
  process : Option Proc
  playing : Bool
  paused : Bool
  current_position : Nat
  led : Bool
deriving Repr, DecidableEq

/-- `set_play_led(is_on)`: drives the LED GPIO line. -/
def set_play_led (is_on : Bool) (st : PlayerState) : PlayerState :=
  { st with led := is_on }

/-- State after `MP3Player.__init__` and the module-level `set_play_led(False)`:
no playlist attribute, no live process, not playing, not paused, position 0,
LED low.  (`current_track` is likewise unassigned in Python; the record keeps a
default `0`, and every operation that would read it before a playlist exists is
modelled as erroring on the missing `playlist` instead.) -/
def initState : PlayerState :=
  { playlist := none
    current_track := 0
    current_subdir := none
    process := none
    playing := false
    paused := false
    current_position := 0
    led := false }

/-- Lexicographic order on character lists by code point — how Python
compares strings. -/
def listCharLe : List Char → List Char → Bool
  | [], _ => true
  | _ :: _, [] => false
  | x :: xs, y :: ys =>
    if x.toNat < y.toNat then true
    else if y.toNat < x.toNat then false
    else listCharLe xs ys

/-- Python string `<=`: lexicographic by code point. -/
def strLe (a b : String) : Bool := listCharLe a.data b.data

/-- Insert a string into a lexicographically sorted list (helper for
`sortStrings`). -/
def insertStr (x : String) : List String → List String
  | [] => [x]
  | y :: ys => if strLe x y then x :: y :: ys else y :: insertStr x ys

/-- Python `sorted` on a list of strings: lexicographic insertion sort. -/
def sortStrings : List String → List String
  | [] => []
  | x :: xs => insertStr x (sortStrings xs)

/-- Python whitespace for `str.strip()`: space, tab, LF, VT, FF, CR. -/
def isPySpace (c : Char) : Bool :=
  c.toNat = 32 || c.toNat = 9 || c.toNat = 10 ||
  c.toNat = 11 || c.toNat = 12 || c.toNat = 13

/-- Python `str.strip()`: drop leading and trailing whitespace. -/
def strip (s : String) : String :=
  ⟨((s.data.dropWhile isPySpace).reverse.dropWhile isPySpace).reverse⟩

/-- `MP3Player.load_directory(subdir)` (src/main.py lines 87-101).
Returns the state together with the message of the `ValueError` it raised,
if any; note the source assigns `self.current_subdir` and `self.playlist`
BEFORE checking that the playlist is non-empty, so a raise on an empty
directory leaves those assignments in place, and `current_track` is only
reset on full success. -/
def load_directory (fs : FS) (subdir : String) (st : PlayerState) :
    PlayerState × Option String :=
  if fs.isDir subdir = false then
    (st, some ("Error: " ++ subdir ++ " is not a valid subdirectory in ./music"))
  else
    let st1 := { st with current_subdir := some subdir
                         playlist := some (sortStrings (fs.mp3Files subdir)) }
    if sortStrings (fs.mp3Files subdir) = [] then
      (st1, some ("No MP3 files found in ./music/" ++ subdir))
    else
      ({ st1 with current_track := 0 }, none)

/-- `self.playlist[self.current_track]` as read by `start_playback`; total
here via defaults — every call site in the claims has a loaded playlist and
an in-range index. -/
def trackFile (st : PlayerState) : String :=
  (st.playlist.getD []).getD st.current_track.toNat ""

/-- `MP3Player.start_playback(position=0)` (lines 171-187).  The source
computes `seek_arg` from `position` but never uses it: the spawned command
is always `['mpg123', current_file]`.  Sets `playing`, clears `paused`,
drives the LED high. -/
def start_playback (position : Nat) (st : PlayerState) : PlayerState :=
  let seek_arg := if position > 0 then "--seek " ++ toString position else ""
  let current_file := trackFile st
  let command := ["mpg123", current_file]
  { st with process := some { cmd := command }
            playing := true
            paused := false
            led := true }

/-- `MP3Player.play_current_track` (lines 189-196): terminate any live
process, reset `current_position` to 0, start playback from 0
(`show_now_playing` only prints). -/
def play_current_track (st : PlayerState) : PlayerState :=
  let st1 := match st.process with
    | some _ => { st with process := none }
    | none => st
  let st2 := { st1 with current_position := 0 }
  start_playback 0 st2

/-- `MP3Player.toggle_play_pause` (lines 205-224).  Pausing records
`current_position = 0` (the elapsed-time expression is commented out in the
source), terminates the process, sets `paused`, LED low.  Resuming calls
`start_playback(self.current_position)` and clears `paused`.  With no live
process and not paused, nothing happens. -/
def toggle_play_pause (st : PlayerState) : PlayerState :=
  if !st.paused && st.process.isSome then
    { st with current_position := 0
              process := none
              paused := true
              led := false }
  else if st.paused then
    let st1 := start_playback st.current_position st
    { st1 with paused := false }
  else
    st

/-- `MP3Player.next_track` (lines 226-228): `(current_track + 1) % len(playlist)`
then `play_current_track`.  With no `playlist` attribute Python raises
`AttributeError`; with an empty playlist, `% 0` raises `ZeroDivisionError` —
both uncaught in the main loop. -/
def next_track (st : PlayerState) : Except String PlayerState :=
  match st.playlist with
  | none => .error "AttributeError: MP3Player object has no attribute playlist"
  | some pl =>
    if pl.length = 0 then
      .error "ZeroDivisionError: integer modulo by zero"
    else
      .ok (play_current_track
        { st with current_track := (st.current_track + 1) % (pl.length : Int) })

/-- `MP3Player.previous_track` (lines 230-232): `(current_track - 1) % len`
(Python `%` with a positive modulus is Euclidean, as is `Int.emod`). -/
def previous_track (st : PlayerState) : Except String PlayerState :=
  match st.playlist with
  | none => .error "AttributeError: MP3Player object has no attribute playlist"
  | some pl =>
    if pl.length = 0 then
      .error "ZeroDivisionError: integer modulo by zero"
    else
      .ok (play_current_track
        { st with current_track := (st.current_track - 1) % (pl.length : Int) })

/-- `MP3Player.check_if_track_ended` (lines 234-236): if a process handle is
held, its `poll()` is not `None` (modelled by the `exited` input), and we are
not paused, auto-advance via `next_track`. -/
def check_if_track_ended (exited : Bool) (st : PlayerState) :
    Except String PlayerState :=
  if st.process.isSome && exited && !st.paused then
    next_track st
  else
    .ok st

/-- `MP3Player.change_directory(new_subdir=None)` (lines 130-169).  Terminal
mode switching and the playlist listing are console I/O.  With
`new_subdir == None` the name is read from `input()` (modelled by
`promptInput`) and stripped; a tag-supplied name is used as-is.  Any live
process is terminated and the LED driven low BEFORE `load_directory` is
attempted; a `ValueError` from `load_directory` is caught and printed
(returned here as the second component), keeping whatever state
`load_directory` left behind.  On success the first track of the new
playlist is started. -/
def change_directory (fs : FS) (new_subdir : Option String)
    (promptInput : String) (st : PlayerState) : PlayerState × Option String :=
  let name := match new_subdir with
    | none => strip promptInput
    | some s => s
  let st1 := match st.process with
    | some _ => { st with process := none }
    | none => st
  let st2 := set_play_led false st1
  match load_directory fs name st2 with
  | (st3, none) => (play_current_track st3, none)
  | (st3, some e) => (st3, some e)

/-- The `q` branch of the main loop (lines 287-293): LED low, then terminate
and wait for any live process, then return. -/
def quit_cleanup (st : PlayerState) : PlayerState :=
  let st1 := set_play_led false st
  match st1.process with
  | some _ => { st1 with process := none }
  | none => st1

/-- The `except KeyboardInterrupt` branch (lines 300-305): terminate and wait
for any live process, then return.  Unlike the `q` branch it does NOT call
`set_play_led(False)`. -/
def interrupt_cleanup (st : PlayerState) : PlayerState :=
  match st.process with
  | some _ => { st with process := none }
  | none => st

/-- Outcome of the keyboard-dispatch section of one loop iteration. -/
inductive KeyOutcome where
  | cont (st : PlayerState)
  | halt (st : PlayerState)
deriving Repr, DecidableEq

/-- Result of one iteration of the main loop: continue with an updated
last-seen tag value and state, return from `run`, or crash on an uncaught
exception. -/
inductive TickResult where
  | cont (current_dir : Option String) (st : PlayerState)
  | halt (st : PlayerState)
  | crash (msg : String)
deriving Repr, DecidableEq

/-- One iteration of the `while True` loop in `MP3Player.run`
(lines 267-298), in source order:
1. `check_if_track_ended()` (an uncaught exception crashes the loop);
2. read the tag source (`reader.read_no_block()`), strip a present value;
3. poll the keyboard and dispatch at most one command
   (`p`/`n`/`b`/`c`/`q`);
4. compare the stripped tag value with the loop-local `current_dir` and
   trigger `change_directory` only when it is present and different.
`exited` is what `process.poll()` reports for the handle held at step 1;
`tag` is the tag read; `key` the polled character; `promptInput` what
`input()` would return if the `c` command prompts.  The keyboard dispatch
block (lines 277-293) is factored out as `key_dispatch`. -/
def key_dispatch (fs : FS) (key : Option Char) (promptInput : String)
    (st : PlayerState) : Except String KeyOutcome :=
  match key with
  | none => .ok (.cont st)
  | some c =>
    if c = 'p' then .ok (.cont (toggle_play_pause st))
    else if c = 'n' then (next_track st).map .cont
    else if c = 'b' then (previous_track st).map .cont
    else if c = 'c' then
      .ok (.cont (change_directory fs none promptInput st).1)
    else if c = 'q' then .ok (.halt (quit_cleanup st))
    else .ok (.cont st)

def loop_tick (fs : FS) (exited : Bool) (tag : Option String)
    (key : Option Char) (promptInput : String)
    (current_dir : Option String) (st : PlayerState) : TickResult :=
  match check_if_track_ended exited st with
  | .error e => .crash e
  | .ok stA =>
    let new_dir := tag.map strip
    match key_dispatch fs key promptInput stA with
    | .error e => .crash e
    | .ok (.halt stB) => .halt stB
    | .ok (.cont stB) =>
      if new_dir ≠ current_dir then
        match new_dir with
        | some v => .cont (some v) (change_directory fs (some v) "" stB).1
        | none => .cont current_dir stB
      else
        .cont current_dir stB

/-- Run `f` as a state transformer `k` times, stopping at the first error
(used to iterate `next_track` / `previous_track`). -/
def iterE (f : PlayerState → Except String PlayerState) :
    Nat → PlayerState → Except String PlayerState
  | 0, st => .ok st
  | k + 1, st => (f st).bind (iterE f k)

/-- The C2 invariant: a playlist is loaded, it is non-empty, and the current
track index lies in `[0, len)`. -/
def goodState (st : PlayerState) : Prop :=
  ∃ pl, st.playlist = some pl ∧ 0 < pl.length ∧
    0 ≤ st.current_track ∧ st.current_track < (pl.length : Int)

/-- The C7 invariant: the LED line is high exactly when a decoder process is
live (a live, un-paused process is the only way audio sounds; a paused state
in this program has no live process). -/
def ledInv (st : PlayerState) : Prop :=
  st.led = st.process.isSome

/-- A representative reachable state: playlist `rock` loaded with two tracks,
track 0 playing with a live decoder process, LED high. -/
def stDemo : PlayerState :=
  { playlist := some ["a.mp3", "b.mp3"]
    current_track := 0
    current_subdir := some "rock"
    process := some { cmd := ["mpg123", "a.mp3"] }
    playing := true
    paused := false
    current_position := 0
    led := true }

/-- A concrete filesystem: `rock` exists with two MP3s (unsorted on disk),
`empty` exists with no MP3s, nothing else exists. -/
def fsDemo : FS :=
  { isDir := fun d => d == "rock" || d == "empty"
    mp3Files := fun d => if d == "rock" then ["b.mp3", "a.mp3"] else [] }

theorem play_current_track_eq (st : PlayerState) :
    play_current_track st =
      { st with process := some { cmd := ["mpg123", trackFile st] }
                current_position := 0
                playing := true
                paused := false
                led := true } := by
  cases h : st.process <;>
    simp [play_current_track, start_playback, trackFile, h]

theorem next_track_eq (st : PlayerState) (pl : List String)
    (hpl : st.playlist = some pl) (hN : 0 < pl.length) :
    next_track st = .ok (play_current_track
      { st with current_track := (st.current_track + 1) % (pl.length : Int) }) := by
  simp [next_track, hpl, hN.ne']

theorem previous_track_eq (st : PlayerState) (pl : List String)
    (hpl : st.playlist = some pl) (hN : 0 < pl.length) :
    previous_track st = .ok (play_current_track
      { st with current_track := (st.current_track - 1) % (pl.length : Int) }) := by
  simp [previous_track, hpl, hN.ne']

/-- C10: In the controller's initial state no track list is loaded and no
process is live; `toggle_play_pause` and `check_if_track_ended` leave the
state unchanged, while `next_track` and `previous_track` raise an uncaught
Python error (modelled as `.error`) rather than playing a track. -/
theorem C10_initial_state_safe :
    initState.playlist = none ∧ initState.process = none ∧
    initState.playing = false ∧
    toggle_play_pause initState = initState ∧
    (∀ ex : Bool, check_if_track_ended ex initState = .ok initState) ∧
    (∃ e, next_track initState = .error e) ∧
    (∃ e, previous_track initState = .error e) := by
  refine ⟨rfl, rfl, rfl, rfl, ?_, ⟨_, rfl⟩, ⟨_, rfl⟩⟩
  intro ex
  cases ex <;> rfl

/-- C3 counterexample: starting playback with saved position 5 spawns exactly
`['mpg123', 'a.mp3']` — identical to starting at position 0, and containing
no seek argument.  The offset is NOT passed to the decoder process. -/
theorem C3_counterexample :
    start_playback 5 stDemo = start_playback 0 stDemo ∧
    (start_playback 5 stDemo).process = some { cmd := ["mpg123", "a.mp3"] } ∧
    "--seek 5" ∉ ["mpg123", "a.mp3"] := by
  refine ⟨rfl, rfl, by decide⟩

/-- C3 (amended): `start_playback` ignores its position argument entirely —
the computed seek string is never placed in the spawned command, which is
always `['mpg123', current_file]` — and pausing records saved position 0, so
resuming from Paused respawns the decoder for the same file with no offset,
i.e. from the beginning of the track. -/
theorem C3_amended_seek_ignored (st : PlayerState) (p : Nat) :
    start_playback p st = start_playback 0 st ∧
    (start_playback p st).process = some { cmd := ["mpg123", trackFile st] } ∧
    (st.paused = false → st.process.isSome →
      (toggle_play_pause st).current_position = 0 ∧
      (toggle_play_pause (toggle_play_pause st)).process =
        some { cmd := ["mpg123", trackFile st] }) := by
  refine ⟨rfl, rfl, fun hp hpr => ⟨?_, ?_⟩⟩ <;>
    simp [toggle_play_pause, start_playback, trackFile, hp, hpr]

/-- C3 witness: the amended statement at the concrete state `stDemo`,
position 7. -/
theorem C3_amended_seek_ignored_witness :
    start_playback 7 stDemo = start_playback 0 stDemo ∧
    (start_playback 7 stDemo).process = some { cmd := ["mpg123", trackFile stDemo] } ∧
    (toggle_play_pause stDemo).current_position = 0 ∧
    (toggle_play_pause (toggle_play_pause stDemo)).process =
      some { cmd := ["mpg123", trackFile stDemo] } := by
  have h := C3_amended_seek_ignored stDemo 7
  exact ⟨h.1, h.2.1, (h.2.2 rfl rfl).1, (h.2.2 rfl rfl).2⟩

/-- C6: from any state that is Playing with a live process, toggling twice
goes Playing → Paused → Playing: the first toggle pauses (process terminated,
`paused` set), the second resumes, and the current track index is unchanged
with a live process again held and `paused` cleared. -/
theorem C6_toggle_twice_restores (st : PlayerState) (pr : Proc)
    (hpause : st.paused = false) (hproc : st.process = some pr) :
    (toggle_play_pause st).paused = true ∧
    (toggle_play_pause st).process = none ∧
    (toggle_play_pause (toggle_play_pause st)).current_track = st.current_track ∧
    (toggle_play_pause (toggle_play_pause st)).paused = false ∧
    (toggle_play_pause (toggle_play_pause st)).playing = true ∧
    (toggle_play_pause (toggle_play_pause st)).process =
      some { cmd := ["mpg123", trackFile st] } := by
  refine ⟨?_, ?_, ?_, ?_, ?_, ?_⟩ <;>
    simp [toggle_play_pause, start_playback, trackFile, hpause, hproc]

/-- C6 witness: the double-toggle property at the concrete playing state
`stDemo`. -/
theorem C6_toggle_twice_restores_witness :
    (toggle_play_pause stDemo).paused = true ∧
    (toggle_play_pause stDemo).process = none ∧
    (toggle_play_pause (toggle_play_pause stDemo)).current_track = stDemo.current_track ∧
    (toggle_play_pause (toggle_play_pause stDemo)).paused = false ∧
    (toggle_play_pause (toggle_play_pause stDemo)).playing = true ∧
    (toggle_play_pause (toggle_play_pause stDemo)).process =
      some { cmd := ["mpg123", trackFile stDemo] } :=
  C6_toggle_twice_restores stDemo { cmd := ["mpg123", "a.mp3"] } rfl rfl

/-- C1 counterexample: from a Playing state with a live process,
`change_directory` to a NONEXISTENT subdirectory terminates the process
(playback state is not left unchanged), and to an EXISTING subdirectory with
no MP3s it replaces the track list with the empty list and overwrites the
current subdirectory — refuting the claim that all of track index, track
list, current subdirectory and playback state are left unchanged. -/
theorem C1_counterexample :
    stDemo.process = some { cmd := ["mpg123", "a.mp3"] } ∧
    (change_directory fsDemo (some "nope") "" stDemo).1.process = none ∧
    (change_directory fsDemo (some "empty") "" stDemo).1.playlist = some [] ∧
    (change_directory fsDemo (some "empty") "" stDemo).1.current_subdir =
      some "empty" ∧
    stDemo.playlist = some ["a.mp3", "b.mp3"] ∧
    stDemo.current_subdir = some "rock" := by
  refine ⟨rfl, by decide, by decide, by decide, rfl, rfl⟩

/-- C1 (amended): a failed `change_directory` leaves the current track index
unchanged and reports the error instead of crashing (the `ValueError` is
caught), but it first terminates any live process and drives the LED low; a
nonexistent subdirectory leaves track list and current subdirectory intact,
while an existing subdirectory with no MP3 files additionally overwrites the
current subdirectory and replaces the track list with the empty list. -/
theorem C1_failed_change_behavior (fs : FS) (d : String) (st : PlayerState) :
    (fs.isDir d = false →
      (change_directory fs (some d) "" st).1 =
        { st with process := none, led := false } ∧
      (change_directory fs (some d) "" st).2.isSome = true) ∧
    (fs.isDir d = true → sortStrings (fs.mp3Files d) = [] →
      (change_directory fs (some d) "" st).1 =
        { st with process := none
                  led := false
                  current_subdir := some d
                  playlist := some [] } ∧
      (change_directory fs (some d) "" st).2.isSome = true) := by
  constructor
  · intro hdir
    cases h : st.process <;>
      simp [change_directory, load_directory, set_play_led, hdir, h]
  · intro hdir hempty
    cases h : st.process <;>
      simp [change_directory, load_directory, set_play_led, hdir, hempty, h]

/-- C1 witness: the amended behavior at the concrete filesystem `fsDemo`
(subdirectory `nope` does not exist; `empty` exists with no MP3s), from the
playing state `stDemo`. -/
theorem C1_failed_change_behavior_witness :
    (change_directory fsDemo (some "nope") "" stDemo).1 =
      { stDemo with process := none, led := false } ∧
    (change_directory fsDemo (some "empty") "" stDemo).1 =
      { stDemo with process := none
                    led := false
                    current_subdir := some "empty"
                    playlist := some [] } :=
  ⟨((C1_failed_change_behavior fsDemo "nope" stDemo).1 (by decide)).1,
   ((C1_failed_change_behavior fsDemo "empty" stDemo).2 (by decide) (by decide)).1⟩

/-- C5: `change_directory` with an existing subdirectory holding at least one
MP3 file replaces the track list with that directory's MP3 files sorted
lexicographically, records the new subdirectory, resets the current track
index to 0, and starts Playing track 0 (fresh decoder process on the first
sorted file, `paused` cleared, LED high), reporting no error. -/
theorem C5_change_directory_success (fs : FS) (d : String) (st : PlayerState)
    (hdir : fs.isDir d = true) (hne : sortStrings (fs.mp3Files d) ≠ []) :
    (change_directory fs (some d) "" st).1.playlist =
      some (sortStrings (fs.mp3Files d)) ∧
    (change_directory fs (some d) "" st).1.current_track = 0 ∧
    (change_directory fs (some d) "" st).1.current_subdir = some d ∧
    (change_directory fs (some d) "" st).1.playing = true ∧
    (change_directory fs (some d) "" st).1.paused = false ∧
    (change_directory fs (some d) "" st).1.led = true ∧
    (change_directory fs (some d) "" st).1.process =
      some { cmd := ["mpg123", (sortStrings (fs.mp3Files d)).getD 0 ""] } ∧
    (change_directory fs (some d) "" st).2 = none := by
  cases h : st.process <;>
    simp [change_directory, load_directory, set_play_led, play_current_track,
      start_playback, trackFile, hdir, hne, h]

/-- C5 witness: changing to `rock` in `fsDemo` (files `b.mp3`, `a.mp3` on
disk) yields the sorted playlist, index 0, and a decoder playing the first
sorted track. -/
theorem C5_change_directory_success_witness :
    (change_directory fsDemo (some "rock") "" stDemo).1.playlist =
      some (sortStrings (fsDemo.mp3Files "rock")) ∧
    (change_directory fsDemo (some "rock") "" stDemo).1.current_track = 0 ∧
    (change_directory fsDemo (some "rock") "" stDemo).1.current_subdir =
      some "rock" ∧
    (change_directory fsDemo (some "rock") "" stDemo).1.playing = true ∧
    (change_directory fsDemo (some "rock") "" stDemo).1.paused = false ∧
    (change_directory fsDemo (some "rock") "" stDemo).1.led = true ∧
    (change_directory fsDemo (some "rock") "" stDemo).1.process =
      some { cmd := ["mpg123", (sortStrings (fsDemo.mp3Files "rock")).getD 0 ""] } ∧
    (change_directory fsDemo (some "rock") "" stDemo).2 = none :=
  C5_change_directory_success fsDemo "rock" stDemo (by decide) (by decide)

theorem iterE_next_track (pl : List String) (hN : 0 < pl.length) (k : Nat) :
    ∀ st : PlayerState, st.playlist = some pl →
      0 ≤ st.current_track → st.current_track < (pl.length : Int) →
      ∃ st', iterE next_track k st = .ok st' ∧ st'.playlist = some pl ∧
        st'.current_track = (st.current_track + k) % (pl.length : Int) := by
  induction k with
  | zero =>
    intro st hpl h0 h1
    refine ⟨st, rfl, hpl, ?_⟩
    rw [Nat.cast_zero, Int.add_zero, Int.emod_eq_of_lt h0 h1]
  | succ k ih =>
    intro st hpl h0 h1
    have hNz : (pl.length : Int) ≠ 0 := by exact_mod_cast hN.ne'
    have hpos : (0 : Int) < (pl.length : Int) := by exact_mod_cast hN
    have hstep := next_track_eq st pl hpl hN
    have hpl1 : (play_current_track
        { st with current_track :=
            (st.current_track + 1) % (pl.length : Int) }).playlist = some pl := by
      simp [play_current_track_eq, hpl]
    have hct1 : (play_current_track
        { st with current_track :=
            (st.current_track + 1) % (pl.length : Int) }).current_track =
        (st.current_track + 1) % (pl.length : Int) := by
      simp [play_current_track_eq]
    obtain ⟨st', hrun, hpl', hct'⟩ := ih _ hpl1
      (by rw [hct1]; exact Int.emod_nonneg _ hNz)
      (by rw [hct1]; exact Int.emod_lt_of_pos _ hpos)
    refine ⟨st', ?_, hpl', ?_⟩
    · have hun : iterE next_track (k + 1) st =
          (next_track st).bind (iterE next_track k) := rfl
      rw [hun, hstep]
      exact hrun
    · rw [hct', hct1, Int.emod_add_emod]
      congr 1
      push_cast
      ring

theorem iterE_previous_track (pl : List String) (hN : 0 < pl.length) (k : Nat) :
    ∀ st : PlayerState, st.playlist = some pl →
      0 ≤ st.current_track → st.current_track < (pl.length : Int) →
      ∃ st', iterE previous_track k st = .ok st' ∧ st'.playlist = some pl ∧
        st'.current_track = (st.current_track - k) % (pl.length : Int) := by
  induction k with
  | zero =>
    intro st hpl h0 h1
    refine ⟨st, rfl, hpl, ?_⟩
    rw [Nat.cast_zero, Int.sub_zero, Int.emod_eq_of_lt h0 h1]
  | succ k ih =>
    intro st hpl h0 h1
    have hNz : (pl.length : Int) ≠ 0 := by exact_mod_cast hN.ne'
    have hpos : (0 : Int) < (pl.length : Int) := by exact_mod_cast hN
    have hstep := previous_track_eq st pl hpl hN
    have hpl1 : (play_current_track
        { st with current_track :=
            (st.current_track - 1) % (pl.length : Int) }).playlist = some pl := by
      simp [play_current_track_eq, hpl]
    have hct1 : (play_current_track
        { st with current_track :=
            (st.current_track - 1) % (pl.length : Int) }).current_track =
        (st.current_track - 1) % (pl.length : Int) := by
      simp [play_current_track_eq]
    obtain ⟨st', hrun, hpl', hct'⟩ := ih _ hpl1
      (by rw [hct1]; exact Int.emod_nonneg _ hNz)
      (by rw [hct1]; exact Int.emod_lt_of_pos _ hpos)
    refine ⟨st', ?_, hpl', ?_⟩
    · have hun : iterE previous_track (k + 1) st =
          (previous_track st).bind (iterE previous_track k) := rfl
      rw [hun, hstep]
      exact hrun
    · rw [hct', hct1]
      have key : ((st.current_track - 1) % (pl.length : Int) - (k : Int)) %
          (pl.length : Int) = (st.current_track - 1 - (k : Int)) % (pl.length : Int) := by
        rw [Int.sub_emod ((st.current_track - 1) % (pl.length : Int)) (k : Int),
          Int.emod_emod_of_dvd _ dvd_rfl, ← Int.sub_emod]
      rw [key]
      congr 1
      push_cast
      ring

/-- C4: from a non-empty track list of length N at index 0, k applications of
`next_track` land on index `k % N` (so the indices 0,1,…,N-1,0,… are visited
cyclically), and k applications of `previous_track` land on `(-k) % N`
(Euclidean, hence 0,N-1,N-2,…,0,…), wrapping past both ends. -/
theorem C4_cyclic_navigation (st : PlayerState) (pl : List String) (k : Nat)
    (hpl : st.playlist = some pl) (hN : 0 < pl.length)
    (h0 : st.current_track = 0) :
    (∃ st', iterE next_track k st = .ok st' ∧
      st'.current_track = (k : Int) % (pl.length : Int)) ∧
    (∃ st', iterE previous_track k st = .ok st' ∧
      st'.current_track = (-(k : Int)) % (pl.length : Int)) := by
  have hpos : (0 : Int) < (pl.length : Int) := by exact_mod_cast hN
  constructor
  · obtain ⟨st', h1, _, h3⟩ := iterE_next_track pl hN k st hpl
      (by rw [h0]) (by rw [h0]; exact hpos)
    exact ⟨st', h1, by rw [h3, h0, Int.zero_add]⟩
  · obtain ⟨st', h1, _, h3⟩ := iterE_previous_track pl hN k st hpl
      (by rw [h0]) (by rw [h0]; exact hpos)
    exact ⟨st', h1, by rw [h3, h0, Int.zero_sub]⟩

/-- C4 witness: with the two-track playlist of `stDemo`, three `next_track`
calls land on index 3 % 2 = 1 and three `previous_track` calls on
(-3) % 2 = 1. -/
theorem C4_cyclic_navigation_witness :
    (∃ st', iterE next_track 3 stDemo = .ok st' ∧
      st'.current_track = (3 : Int) % (2 : Int)) ∧
    (∃ st', iterE previous_track 3 stDemo = .ok st' ∧
      st'.current_track = (-(3 : Int)) % (2 : Int)) :=
  C4_cyclic_navigation stDemo ["a.mp3", "b.mp3"] 3 rfl (by decide) rfl

theorem goodState_of_fields (st st' : PlayerState)
    (hpl : st'.playlist = st.playlist)
    (hct : st'.current_track = st.current_track) :
    goodState st → goodState st' := by
  rintro ⟨pl, h1, h2, h3, h4⟩
  exact ⟨pl, by rw [hpl, h1], h2, by rw [hct]; exact h3, by rw [hct]; exact h4⟩

theorem next_track_good (st : PlayerState) (h : goodState st) :
    ∃ st', next_track st = .ok st' ∧ goodState st' := by
  obtain ⟨pl, hpl, hN, _, _⟩ := h
  have hNz : (pl.length : Int) ≠ 0 := by exact_mod_cast hN.ne'
  have hpos : (0 : Int) < (pl.length : Int) := by exact_mod_cast hN
  refine ⟨_, next_track_eq st pl hpl hN, ⟨pl, ?_, hN, ?_, ?_⟩⟩
  · simp [play_current_track_eq, hpl]
  · simp only [play_current_track_eq]
    exact Int.emod_nonneg _ hNz
  · simp only [play_current_track_eq]
    exact Int.emod_lt_of_pos _ hpos

theorem previous_track_good (st : PlayerState) (h : goodState st) :
    ∃ st', previous_track st = .ok st' ∧ goodState st' := by
  obtain ⟨pl, hpl, hN, _, _⟩ := h
  have hNz : (pl.length : Int) ≠ 0 := by exact_mod_cast hN.ne'
  have hpos : (0 : Int) < (pl.length : Int) := by exact_mod_cast hN
  refine ⟨_, previous_track_eq st pl hpl hN, ⟨pl, ?_, hN, ?_, ?_⟩⟩
  · simp [play_current_track_eq, hpl]
  · simp only [play_current_track_eq]
    exact Int.emod_nonneg _ hNz
  · simp only [play_current_track_eq]
    exact Int.emod_lt_of_pos _ hpos

/-- C2 counterexample: from the good playing state `stDemo`,
`change_directory` into the existing-but-empty subdirectory leaves the track
list EMPTY — refuting the claimed invariant that after every operation the
track list is non-empty with the index in range. -/
theorem C2_counterexample :
    (change_directory fsDemo (some "empty") "" stDemo).1.playlist = some [] ∧
    ¬ goodState (change_directory fsDemo (some "empty") "" stDemo).1 := by
  have heq : (change_directory fsDemo (some "empty") "" stDemo).1.playlist =
      some [] := by decide
  refine ⟨heq, ?_⟩
  rintro ⟨pl, hpl, hlen, -, -⟩
  rw [heq] at hpl
  obtain rfl : ([] : List String) = pl := Option.some.inj hpl
  simp at hlen

/-- C2 (amended): the invariant "a non-empty track list is loaded and the
current track index is in [0, len)" is preserved by `next_track`,
`previous_track`, `toggle_play_pause`, `check_if_track_ended`, by a
successful `load_directory`, and by `change_directory` whenever the target
does not exist or loads successfully; it is NOT preserved by
`change_directory` into an existing subdirectory with no MP3 files, which
empties the track list (see the counterexample). -/
theorem C2_invariant_preserved (fs : FS) (d : String) (ex : Bool)
    (st : PlayerState) (h : goodState st)
    (hd : fs.isDir d = true → sortStrings (fs.mp3Files d) ≠ []) :
    (∃ st', next_track st = .ok st' ∧ goodState st') ∧
    (∃ st', previous_track st = .ok st' ∧ goodState st') ∧
    goodState (toggle_play_pause st) ∧
    (∃ st', check_if_track_ended ex st = .ok st' ∧ goodState st') ∧
    goodState (change_directory fs (some d) "" st).1 ∧
    ((load_directory fs d st).2 = none → goodState (load_directory fs d st).1) := by
  refine ⟨next_track_good st h, previous_track_good st h, ?_, ?_, ?_, ?_⟩
  · refine goodState_of_fields st _ ?_ ?_ h <;>
      (by_cases h1 : (!st.paused && st.process.isSome) = true <;>
        by_cases h2 : st.paused = true <;>
          simp [toggle_play_pause, start_playback, h1, h2] <;>
          (split <;> rfl))
  · by_cases hc : (st.process.isSome && ex && !st.paused) = true
    · have := next_track_good st h
      simpa [check_if_track_ended, hc] using this
    · exact ⟨st, by simp [check_if_track_ended, hc], h⟩
  · by_cases hdir : fs.isDir d = true
    · have hne := hd hdir
      refine ⟨sortStrings (fs.mp3Files d), ?_, ?_, ?_, ?_⟩ <;>
        cases hp : st.process <;>
          simp [change_directory, load_directory, set_play_led,
            play_current_track_eq, hdir, hne, hp, List.length_pos]
    · have hdir' : fs.isDir d = false := by
        cases hq : fs.isDir d
        · rfl
        · exact absurd hq hdir
      refine goodState_of_fields st _ ?_ ?_ h <;>
        cases hp : st.process <;>
          simp [change_directory, load_directory, set_play_led, hdir', hp]
  · intro hok
    by_cases hdir : fs.isDir d = true
    · by_cases hne : sortStrings (fs.mp3Files d) = []
      · exfalso
        simp [load_directory, hdir, hne] at hok
      · refine ⟨sortStrings (fs.mp3Files d), ?_, ?_, ?_, ?_⟩ <;>
          simp [load_directory, hdir, hne, List.length_pos]
    · have hdir' : fs.isDir d = false := by
        cases hq : fs.isDir d
        · rfl
        · exact absurd hq hdir
      exfalso
      simp [load_directory, hdir'] at hok

/-- C2 witness: the amended invariant preservation applied at the concrete
good state `stDemo` with filesystem `fsDemo` and target `rock`. -/
theorem C2_invariant_preserved_witness :
    (∃ st', next_track stDemo = .ok st' ∧ goodState st') ∧
    (∃ st', previous_track stDemo = .ok st' ∧ goodState st') ∧
    goodState (toggle_play_pause stDemo) ∧
    (∃ st', check_if_track_ended true stDemo = .ok st' ∧ goodState st') ∧
    goodState (change_directory fsDemo (some "rock") "" stDemo).1 ∧
    ((load_directory fsDemo "rock" stDemo).2 = none →
      goodState (load_directory fsDemo "rock" stDemo).1) :=
  C2_invariant_preserved fsDemo "rock" true stDemo
    ⟨["a.mp3", "b.mp3"], rfl, by decide, by decide, by decide⟩
    (fun _ => by decide)

/-- C7 counterexample: the KeyboardInterrupt exit path (lines 300-305 of
src/main.py) terminates the decoder process but never calls
`set_play_led(False)`: from the playing state `stDemo` it ends with no live
process yet the LED still driven high — refuting the claim that every exit
path drives the output low. -/
theorem C7_counterexample :
    (interrupt_cleanup stDemo).process = none ∧
    (interrupt_cleanup stDemo).led = true :=
  ⟨rfl, rfl⟩

theorem ledInv_change_directory_some (fs : FS) (nm : String)
    (st : PlayerState) : ledInv (change_directory fs (some nm) "" st).1 := by
  cases hp : st.process <;>
    cases hdir : fs.isDir nm <;>
      by_cases hempty : sortStrings (fs.mp3Files nm) = [] <;>
        simp [change_directory, load_directory, set_play_led, ledInv,
          play_current_track_eq, hp, hdir, hempty]

theorem ledInv_change_directory (fs : FS) (d : Option String) (pin : String)
    (st : PlayerState) : ledInv (change_directory fs d pin st).1 := by
  rcases d with _ | nm
  · exact ledInv_change_directory_some fs (strip pin) st
  · exact ledInv_change_directory_some fs nm st

/-- C7 (amended): the LED tracks decoder liveness ("high exactly while audio
is sounding") across `toggle_play_pause`, `next_track`, `previous_track`,
`check_if_track_ended` and `change_directory`, and the quit command drives
it low with the process stopped; but the KeyboardInterrupt path terminates
the process while leaving the LED in its prior state (high if audio was
sounding). -/
theorem C7_led_tracks_process (fs : FS) (d : Option String) (pin : String)
    (ex : Bool) (st stn stp stc : PlayerState) :
    (ledInv st → ledInv (toggle_play_pause st)) ∧
    (next_track st = .ok stn → ledInv stn) ∧
    (previous_track st = .ok stp → ledInv stp) ∧
    (check_if_track_ended ex st = .ok stc → ledInv st → ledInv stc) ∧
    ledInv (change_directory fs d pin st).1 ∧
    ((quit_cleanup st).led = false ∧ (quit_cleanup st).process = none) ∧
    ((interrupt_cleanup st).process = none ∧
      (interrupt_cleanup st).led = st.led) := by
  have hnext : ∀ s' : PlayerState, next_track st = .ok s' → ledInv s' := by
    intro s' hok
    cases hpl : st.playlist with
    | none => simp [next_track, hpl] at hok
    | some pl =>
      by_cases hl : pl.length = 0
      · simp [next_track, hpl, hl] at hok
      · simp [next_track, hpl, hl] at hok
        rw [← hok]
        simp [play_current_track_eq, ledInv]
  have hprev : ∀ s' : PlayerState, previous_track st = .ok s' → ledInv s' := by
    intro s' hok
    cases hpl : st.playlist with
    | none => simp [previous_track, hpl] at hok
    | some pl =>
      by_cases hl : pl.length = 0
      · simp [previous_track, hpl, hl] at hok
      · simp [previous_track, hpl, hl] at hok
        rw [← hok]
        simp [play_current_track_eq, ledInv]
  refine ⟨?_, hnext stn, hprev stp, ?_, ledInv_change_directory fs d pin st,
    ?_, ?_⟩
  · intro hinv
    cases h2 : st.paused
    · cases hp : st.process
      · simpa [toggle_play_pause, ledInv, h2, hp] using hinv
      · simp [toggle_play_pause, ledInv, h2, hp]
    · simp [toggle_play_pause, start_playback, ledInv, h2]
  · intro hok hinv
    by_cases hc : (st.process.isSome && ex && !st.paused) = true
    · exact hnext stc (by simpa [check_if_track_ended, hc] using hok)
    · have : st = stc := by simpa [check_if_track_ended, hc] using hok
      rw [← this]
      exact hinv
  · cases hp : st.process <;> simp [quit_cleanup, set_play_led, hp]
  · cases hp : st.process <;> simp [interrupt_cleanup, hp]

/-- C7 witness: the amended LED behaviour at concrete inputs — the playing
state `stDemo`, its successor after an advance, and the two exit paths. -/
theorem C7_led_tracks_process_witness :
    ledInv (toggle_play_pause stDemo) ∧
    ledInv (play_current_track { stDemo with current_track := 1 }) ∧
    ledInv (change_directory fsDemo (some "rock") "" stDemo).1 ∧
    (quit_cleanup stDemo).led = false ∧ (quit_cleanup stDemo).process = none ∧
    (interrupt_cleanup stDemo).process = none ∧
    (interrupt_cleanup stDemo).led = stDemo.led := by
  have h := C7_led_tracks_process fsDemo (some "rock") "" true stDemo
    (play_current_track { stDemo with current_track := 1 })
    (play_current_track { stDemo with current_track := 1 })
    (play_current_track { stDemo with current_track := 1 })
  exact ⟨h.1 rfl, h.2.1 rfl, h.2.2.2.2.1,
    h.2.2.2.2.2.1.1, h.2.2.2.2.2.1.2, h.2.2.2.2.2.2.1, h.2.2.2.2.2.2.2⟩

/-- C8: on any loop tick that reaches the tag-comparison step (end-of-track
check returned `st1`, keyboard dispatch continued with `st2`),
`change_directory` is triggered by the tag source exactly when the freshly
read tag value is present and its stripped form differs from the last-seen
value `cd`: with no tag, or with a tag whose stripped value equals `cd`, the
state passes through as `st2` with `cd` unchanged; with a present different
tag the tick applies `change_directory` to `st2` and records the new value. -/
theorem C8_tag_edge_trigger (fs : FS) (exited : Bool) (key : Option Char)
    (pin : String) (v : String) (cd : Option String) (st st1 st2 : PlayerState)
    (hchk : check_if_track_ended exited st = .ok st1)
    (hkey : key_dispatch fs key pin st1 = .ok (.cont st2)) :
    loop_tick fs exited none key pin cd st = .cont cd st2 ∧
    (some (strip v) = cd →
      loop_tick fs exited (some v) key pin cd st = .cont cd st2) ∧
    (some (strip v) ≠ cd →
      loop_tick fs exited (some v) key pin cd st =
        .cont (some (strip v)) (change_directory fs (some (strip v)) "" st2).1) := by
  refine ⟨?_, ?_, ?_⟩
  · rcases cd with _ | c <;>
      simp [loop_tick, hchk, hkey]
  · intro heq
    simp [loop_tick, hchk, hkey, heq]
  · intro hne
    simp [loop_tick, hchk, hkey, hne]

/-- C8 witness: with last-seen tag `rock`, a tick reading no tag or reading
`rock` again changes nothing, while reading `jazz` triggers a playlist
change and updates the last-seen value. -/
theorem C8_tag_edge_trigger_witness :
    loop_tick fsDemo false none none "" (some "rock") stDemo =
      .cont (some "rock") stDemo ∧
    loop_tick fsDemo false (some "rock") none "" (some "rock") stDemo =
      .cont (some "rock") stDemo ∧
    loop_tick fsDemo false (some "jazz") none "" (some "rock") stDemo =
      .cont (some (strip "jazz"))
        (change_directory fsDemo (some (strip "jazz")) "" stDemo).1 :=
  ⟨(C8_tag_edge_trigger fsDemo false none "" "x" (some "rock")
      stDemo stDemo stDemo rfl rfl).1,
   (C8_tag_edge_trigger fsDemo false none "" "rock" (some "rock")
      stDemo stDemo stDemo rfl rfl).2.1 (by decide),
   (C8_tag_edge_trigger fsDemo false none "" "jazz" (some "rock")
      stDemo stDemo stDemo rfl rfl).2.2 (by decide)⟩

/-- C9: within a single loop tick, end-of-track detection runs before the
newly polled keyboard command is dispatched: from a Playing state (live
process, not paused) whose process has exited, with `n` read in the same
tick and no tag, the tick auto-advances first and then applies the command —
the final index is `(current + 2) % N`, not `(current + 1) % N`. -/
theorem C9_check_before_key (fs : FS) (st : PlayerState) (pl : List String)
    (pr : Proc) (cd : Option String)
    (hpl : st.playlist = some pl) (hN : 0 < pl.length)
    (hproc : st.process = some pr) (hpause : st.paused = false) :
    ∃ st', loop_tick fs true none (some 'n') "" cd st = .cont cd st' ∧
      st'.current_track = (st.current_track + 2) % (pl.length : Int) := by
  have hchk : check_if_track_ended true st = next_track st := by
    simp [check_if_track_ended, hproc, hpause]
  have hA := next_track_eq st pl hpl hN
  set stA := play_current_track
    { st with current_track := (st.current_track + 1) % (pl.length : Int) }
    with hstA
  have hplA : stA.playlist = some pl := by
    simp [hstA, play_current_track_eq, hpl]
  have hB := next_track_eq stA pl hplA hN
  set stB := play_current_track
    { stA with current_track := (stA.current_track + 1) % (pl.length : Int) }
    with hstB
  refine ⟨stB, ?_, ?_⟩
  · rcases cd with _ | c <;>
      simp [loop_tick, key_dispatch, hchk, hA, hB, Except.map]
  · have hctA : stA.current_track =
        (st.current_track + 1) % (pl.length : Int) := by
      simp [hstA, play_current_track_eq]
    have hctB : stB.current_track =
        (stA.current_track + 1) % (pl.length : Int) := by
      simp [hstB, play_current_track_eq]
    rw [hctB, hctA, Int.emod_add_emod]
    congr 1
    ring

/-- C9 witness: from the playing two-track state `stDemo` (track 0) whose
process has exited, with `n` pending in the same tick, the final index is
(0 + 2) % 2 = 0 — advanced twice, once by auto-advance and once by the
command. -/
theorem C9_check_before_key_witness :
    ∃ st', loop_tick fsDemo true none (some 'n') "" none stDemo =
      .cont none st' ∧
      st'.current_track =
        (stDemo.current_track + 2) % ((["a.mp3", "b.mp3"].length : Nat) : Int) :=
  C9_check_before_key fsDemo stDemo ["a.mp3", "b.mp3"]
    { cmd := ["mpg123", "a.mp3"] } none rfl (by decide) rfl rfl
